import Mathlib

/-!
Shallow embedding of the `report_generator` web service
(`src/app.py`, `src/models.py`, `src/database.py`, `src/template_utils.py`)
and proofs about the report pipeline: the file-backed report store, the
order aggregation query, the database session wrapper, the HTTP routes and
the template formatting filters.

Modelling conventions:
* the on-disk `reports/` directory is a map from path strings to byte
  strings (`FS`); bytes are `List Nat`;
* process environment variables are a map `String → Option String`;
* Python exceptions are `Except PyError`; a context manager that swallows
  an exception makes the enclosing function return Python `None`, modelled
  as `Option.none`;
* SQL `ORDER BY` is modelled by `List.insertionSort` (any correct
  implementation; only sortedness and permutation are used in statements);
* `datetime.fromtimestamp` uses the server's local timezone, modelled as a
  fixed offset in seconds passed explicitly.
-/

/-- Byte strings, the content of a stored PDF file. -/
def Bytes : Type := List Nat
deriving DecidableEq

/-- The state of the `reports/` directory: a map from paths to file bytes. -/
def FS : Type := String → Option Bytes

/-- Environment variables of the process. -/
def Env : Type := String → Option String

/-- Path of the stored report for a given identifier: `reports/<uid>.pdf`,
as built both by `generate_report` and `get_report_from_storage` in
`src/app.py`. -/
def reportPath (uid : String) : String := "reports/" ++ uid ++ ".pdf"

/-- Write step of `generate_report` (src/app.py lines 170-177):
`HTML(...).write_pdf(Path(__file__).parent / f"reports/{uid}.pdf", ...)`
persists the rendered bytes at the path derived from the identifier,
overwriting any existing file. -/
def putReport (fs : FS) (uid : String) (b : Bytes) : FS :=
  fun p => if p = reportPath uid then some b else fs p

/-- Embeds `get_report_from_storage` (src/app.py lines 180-185): return the
bytes of the file `reports/<uid>.pdf` if it exists, else Python `None`. -/
def get_report_from_storage (fs : FS) (uid : String) : Option Bytes :=
  fs (reportPath uid)

/-- JSON scalar values appearing in this service's response bodies. -/
inductive JVal where
  | null
  | str (s : String)
  | bytes (b : List Nat)
deriving DecidableEq

/-- Response bodies produced by the routes of `src/app.py`. -/
inductive Body where
  | empty
  | pdf (b : List Nat)
  | jsonObj (fields : List (String × JVal))
  | jsonArr (xs : List String)
deriving DecidableEq

/-- An HTTP response: status code, headers and body. -/
structure HttpResponse where
  status : Nat
  headers : List (String × String)
  body : Body
deriving DecidableEq

/-- Embeds `starlette.responses.RedirectResponse(url)`: a redirect response
whose default `status_code` is `307` (the library default used when, as in
`root`, no explicit status code is passed). -/
def RedirectResponse (url : String) (status : Nat := 307) : HttpResponse :=
  { status := status, headers := [("location", url)], body := .empty }

/-- Embeds the `root` route (src/app.py lines 101-103):
`return RedirectResponse("/docs")`. -/
def root : HttpResponse := RedirectResponse "/docs"

/-- Embeds the `get_report` route (src/app.py lines 125-141): fetch the
stored bytes; if absent return a 404 JSON body with a reason string, else
a 200 PDF attachment response. -/
def get_report (fs : FS) (uid : String) : HttpResponse :=
  match get_report_from_storage fs uid with
  | none =>
      { status := 404
        headers := []
        body := .jsonObj
          [("reason", .str ("Report with id " ++ uid ++ " not found."))] }
  | some b =>
      { status := 200
        headers :=
          [("Content-Disposition", "attachment; filename=\"report.pdf\""),
           ("Accept-Encoding", "gzip")]
        body := .pdf b }

/-- Embeds `CurrencyEnum` (src/models.py lines 11-13). -/
inductive CurrencyEnum where
  | EUR
  | TRY
deriving DecidableEq

/-- Currency symbol carried by each enum member. -/
def CurrencyEnum.symbol : CurrencyEnum → String
  | .EUR => "€"
  | .TRY => "₺"

/-- Embeds the `Customer` table row (src/models.py lines 19-27). -/
structure Customer where
  id : Nat
  name : String
  surname : String
  contact_email : Option String := none
  contact_phone : Option String := none
deriving DecidableEq

/-- Embeds the `Order` table row (src/models.py lines 30-38), named as in
`src/app.py` (`from .models import Order as dbOrder`). The fixed-point
amount (≤ 6 digits, 2 decimal places) is held as an integer number of
cents. -/
structure dbOrder where
  uid : Nat
  initialized : Int
  amount : Option Int := none
  currency : CurrencyEnum := .EUR
  finalized : Option Int := none
  customer_id : Option Nat := none
deriving DecidableEq

/-- The state of the relational store: all customer and order rows. -/
structure Db where
  customers : List Customer
  orders : List dbOrder
deriving DecidableEq

/-- Embeds the pydantic response model `Order` of src/app.py lines 74-88:
the flat presentation record built by `gather_orders`. -/
structure Order where
  uid : Nat
  name : String
  surname : String
  initialized : Int
  amount : Option Int := none
  currency : CurrencyEnum := .EUR
  finalized : Option Int := none
deriving DecidableEq

/-- Python exceptions that the embedded code can raise. -/
inductive PyError where
  | OperationalError
  | AttributeError
deriving DecidableEq

/-- Outcome of running a unit of work through the `db_session` context
manager: the value the enclosing Python function ends up returning
(`none` when the body's exception was swallowed and control fell off the
end of the function), whether `rollback`/`commit` ran, and the exception
escaping to the caller, if any. -/
structure SessionResult (α : Type) where
  value : Option α
  rolledBack : Bool
  committed : Bool
  raised : Option PyError
deriving DecidableEq

/-- Embeds `db_session` (src/app.py lines 41-50): `try: yield session`,
`except Exception: print(e); session.rollback()`, `finally:
session.commit()`.  Because the `@contextmanager` generator catches the
body's exception and does not re-raise it, the exception is suppressed:
the `with` statement completes and the enclosing function returns `None`. -/
def db_session {α : Type} (body : Except PyError α) : SessionResult α :=
  match body with
  | .ok a => { value := some a, rolledBack := false, committed := true, raised := none }
  | .error _ => { value := none, rolledBack := true, committed := true, raised := none }

/-- Ordering used by `order_by(-dbOrder.initialized)` in `gather_orders`:
ascending in the negated timestamp, i.e. `initialized` descending. -/
def initDesc (a b : dbOrder) : Prop := b.initialized ≤ a.initialized

instance : DecidableRel initDesc := fun _ _ => Int.decLe _ _

instance : IsTotal dbOrder initDesc :=
  ⟨fun a b => (Int.le_total b.initialized a.initialized).imp id id⟩

instance : IsTrans dbOrder initDesc :=
  ⟨fun _ _ _ h1 h2 => le_trans h2 h1⟩

/-- The rows returned by
`session.exec(select(dbOrder).order_by(-dbOrder.initialized)).all()`:
all order rows, sorted by `initialized` descending. -/
def orderByInitDesc (l : List dbOrder) : List dbOrder :=
  List.insertionSort initDesc l

/-- The `order.customer` relationship: the customer row whose primary key
matches the order's `customer_id` foreign key, if any. -/
def dbOrder.customer (db : Db) (o : dbOrder) : Option Customer :=
  o.customer_id.bind (fun cid => db.customers.find? (fun c => c.id == cid))

/-- One element of the list comprehension in `gather_orders` (src/app.py
lines 148-159): build the presentation record from an order row and its
customer.  Accessing `.name` on a missing relationship raises
`AttributeError`. -/
def projectOrder (db : Db) (o : dbOrder) : Except PyError Order :=
  match o.customer db with
  | some c =>
      .ok { uid := o.uid, name := c.name, surname := c.surname,
            amount := o.amount, currency := o.currency,
            initialized := o.initialized, finalized := o.finalized }
  | none => .error .AttributeError

/-- The list comprehension of `gather_orders`: project each row in order,
stopping at the first exception. -/
def projectAll (db : Db) : List dbOrder → Except PyError (List Order)
  | [] => .ok []
  | o :: rest =>
      match projectOrder db o with
      | .error e => .error e
      | .ok v =>
          match projectAll db rest with
          | .error e => .error e
          | .ok vs => .ok (v :: vs)

/-- Body of `gather_orders` inside the `with db_session()` block: run the
query against the store (which raises when the store is unreachable),
then project every row. -/
def gather_orders_body (store : Except PyError Db) : Except PyError (List Order) :=
  match store with
  | .error e => .error e
  | .ok db => projectAll db (orderByInitDesc db.orders)

/-- Embeds `gather_orders` (src/app.py lines 144-159): the query and
projection wrapped in the `db_session` context manager. -/
def gather_orders (store : Except PyError Db) : SessionResult (List Order) :=
  db_session (gather_orders_body store)

/-- Condition guarding both the seeding branch of `lifespan` and the
pass-through branch of the middleware:
`environ.get("MAINTENANCE", "False") == "False"`. -/
def maintenanceOff (env : Env) : Bool :=
  ((env "MAINTENANCE").getD "False") == "False"

/-- The fixed response built by the maintenance middleware (src/app.py
lines 61-65): a 200 JSON payload with the `X-Server-Mode` header added. -/
def maintenanceResponse : HttpResponse :=
  { status := 200
    headers := [("X-Server-Mode", "Maintenance Mode")]
    body := .jsonObj [("message", .str "Server Unavailable due to maintenance")] }

/-- Embeds the `redirect_to_maintenance` middleware (src/app.py lines
57-65): pass the request on when the maintenance flag is unset or equal to
"False", otherwise short-circuit every route to the fixed payload. -/
def redirect_to_maintenance (env : Env) (callNext : HttpResponse) : HttpResponse :=
  if maintenanceOff env then callNext else maintenanceResponse

/-- Embeds the seeding decision of `lifespan` (src/app.py lines 26-38):
when the maintenance flag is unset the tables are dropped, recreated and
filled with sample data (the resulting store is `seeded`, left abstract
because `create_sample_orders` draws random rows); otherwise the store is
left untouched. -/
def lifespan (env : Env) (initial seeded : Db) : Db :=
  if maintenanceOff env then seeded else initial

/-- Embeds the pydantic response model `Report` (src/app.py lines 91-98):
a fresh UUID identifier and an optional content field defaulting to
`None`. -/
structure Report where
  uid : String
  content : Option Bytes := none
deriving DecidableEq

/-- FastAPI serialization of the `Report` response model: every declared
field is emitted (the default serialization does not exclude `None`
fields), so the body always carries both `uid` and `content`. -/
def serializeReport (r : Report) : Body :=
  .jsonObj
    [("uid", .str r.uid),
     ("content", match r.content with | none => .null | some b => .bytes b)]

/-- Embeds the `queue_report` route (src/app.py lines 106-113): mint a
report with a fresh identifier, schedule `generate_report` for that
identifier as a background task to run after the response is sent (the
file system is untouched at response time), and return the report
immediately. -/
def queue_report (freshUid : String) (fs : FS) (tasks : List String) :
    Report × FS × List String :=
  ({ uid := freshUid }, fs, tasks ++ [freshUid])

/-- Zero-padded two-digit decimal rendering used by `strftime` fields
`%d`, `%m`, `%H`, `%M`, `%S`. -/
def pad2 (n : Nat) : String :=
  if n < 10 then "0" ++ toString n else toString n

/-- Year of era (0-399) for a day of era (0-146096) in the
civil-from-days calendar algorithm. -/
def civilYoe (doe : Nat) : Nat :=
  (doe - doe / 1460 + doe / 36524 - doe / 146096) / 365

/-- Day of year (0-365, counted from March 1st) for a day of era. -/
def civilDoy (doe : Nat) : Nat :=
  doe - (365 * civilYoe doe + civilYoe doe / 4 - civilYoe doe / 100)

/-- Shifted month index (0 = March, ..., 11 = February) for a day of era. -/
def civilMp (doe : Nat) : Nat := (5 * civilDoy doe + 2) / 153

/-- Day of month (1-31) for a day of era. -/
def civilDay (doe : Nat) : Nat :=
  civilDoy doe - (153 * civilMp doe + 2) / 5 + 1

/-- Month of year (1-12) for a day of era. -/
def civilMonth (doe : Nat) : Nat :=
  if civilMp doe < 10 then civilMp doe + 3 else civilMp doe - 9

/-- Proleptic-Gregorian date of a day count relative to 1970-01-01
(the civil-from-days algorithm): year, month (1-12) and day (1-31). -/
def civilFromDays (z : Int) : Int × Nat × Nat :=
  let doe := ((z + 719468).emod 146097).toNat
  let m := civilMonth doe
  ((z + 719468).ediv 146097 * 400 + (civilYoe doe : Int) +
      (if m ≤ 2 then 1 else 0),
    m, civilDay doe)

/-- Embeds `datetime.fromtimestamp(t).strftime("%d/%m/%Y @ %H:%M:%S")`:
the epoch timestamp shifted into the server's local timezone (a fixed
offset in seconds) and rendered in the fixed display pattern. -/
def formatTimestamp (offset : Int) (t : Int) : String :=
  let localSecs := t + offset
  let days := localSecs.ediv 86400
  let secs := (localSecs.emod 86400).toNat
  let ymd := civilFromDays days
  let hh := secs / 3600
  let mm := secs % 3600 / 60
  let ss := secs % 60
  pad2 ymd.2.2 ++ "/" ++ pad2 ymd.2.1 ++ "/" ++ toString ymd.1 ++ " @ " ++
    pad2 hh ++ ":" ++ pad2 mm ++ ":" ++ pad2 ss

/-- Embeds `timestamp_format` (src/template_utils.py lines 9-14): format
the value when it is a truthy int (`value and isinstance(value, int)`),
otherwise return Python `None`.  The epoch value `0` is falsy, so it is
not formatted. -/
def timestamp_format (offset : Int) (value : Option Int) : Option String :=
  match value with
  | some v => if v ≠ 0 then some (formatTimestamp offset v) else none
  | none => none

/-- Python scalar values reaching the template filters. -/
inductive Scalar where
  | none
  | str (s : String)
  | int (n : Int)
  | dec (cents : Int)
deriving DecidableEq

/-- Python truthiness of the scalars above: `None`, the empty string, the
int `0` and the decimal `0` are falsy. -/
def falsy : Scalar → Bool
  | .none => true
  | .str s => s == ""
  | .int n => n == 0
  | .dec c => c == 0

/-- Embeds `handle_none` (src/template_utils.py lines 17-20):
`if not value: return "&dash;"` — every falsy value becomes the
placeholder entity, every truthy value passes through. -/
def handle_none (v : Scalar) : Scalar :=
  if falsy v then .str "&dash;" else v

/-- Modelled from the spec: the HTML template `src/templates/base.html`
is absent from the source tree; per the spec it iterates the orders and
pipes each scalar cell through `handle_none` so that a missing value is
displayed as the placeholder rather than blank. -/
def renderCell (v : Scalar) : Scalar := handle_none v

/-- Concrete store used to instantiate theorems with hypotheses. -/
def exDb : Db :=
  { customers :=
      [{ id := 1, name := "Ada", surname := "Lovelace" },
       { id := 2, name := "Alan", surname := "Turing" }],
    orders :=
      [{ uid := 1, initialized := 100, amount := some 500,
         currency := .EUR, finalized := none, customer_id := some 1 },
       { uid := 2, initialized := 200, amount := none,
         currency := .TRY, finalized := none, customer_id := some 2 }] }

/-- The presentation records `gather_orders` produces on `exDb`. -/
def exOut : List Order :=
  [{ uid := 2, name := "Alan", surname := "Turing", initialized := 200,
     amount := none, currency := .TRY, finalized := none },
   { uid := 1, name := "Ada", surname := "Lovelace", initialized := 100,
     amount := some 500, currency := .EUR, finalized := none }]

/-- Concrete environment with the maintenance flag set. -/
def exEnv : Env := fun k => if k = "MAINTENANCE" then some "1" else none

/-- Helper bound: the civil-from-days month and day are a valid calendar
date for every day of era. -/
theorem civilMonthDay_bounds (doe : Nat) (h : doe < 146097) :
    1 ≤ civilMonth doe ∧ civilMonth doe ≤ 12 ∧
    1 ≤ civilDay doe ∧ civilDay doe ≤ 31 := by
  unfold civilMonth civilDay civilMp civilDoy civilYoe
  split_ifs <;> omega

/-- Helper bound: the month and day components of `civilFromDays` are a
valid calendar date for every day count. -/
theorem civilFromDays_bounds (z : Int) :
    1 ≤ (civilFromDays z).2.1 ∧ (civilFromDays z).2.1 ≤ 12 ∧
    1 ≤ (civilFromDays z).2.2 ∧ (civilFromDays z).2.2 ≤ 31 := by
  have h0 : (0 : Int) ≤ (z + 719468).emod 146097 :=
    Int.emod_nonneg _ (by norm_num)
  have h1 : (z + 719468).emod 146097 < 146097 :=
    Int.emod_lt_of_pos _ (by norm_num)
  have hdoe : ((z + 719468).emod 146097).toNat < 146097 := by omega
  dsimp only [civilFromDays]
  exact civilMonthDay_bounds _ hdoe

/-- Helper: a successful projection keeps the order's timestamp. -/
theorem projectOrder_ok_initialized (db : Db) (o : dbOrder) (v : Order)
    (h : projectOrder db o = Except.ok v) : v.initialized = o.initialized := by
  cases hc : o.customer db with
  | none => simp [projectOrder, hc] at h
  | some c =>
      simp only [projectOrder, hc] at h
      injection h with h2
      subst h2
      rfl

/-- Helper: a successful run of the projection comprehension projects
exactly the rows of the input list, in order. -/
theorem projectAll_ok_map (db : Db) (l : List dbOrder) :
    ∀ out : List Order, projectAll db l = Except.ok out →
      l.map (projectOrder db) = out.map Except.ok := by
  induction l with
  | nil =>
      intro out h
      simp only [projectAll] at h
      injection h with h2
      subst h2
      rfl
  | cons o rest ih =>
      intro out h
      cases hpo : projectOrder db o with
      | error e => simp [projectAll, hpo] at h
      | ok v =>
          cases hpr : projectAll db rest with
          | error e => simp [projectAll, hpo, hpr] at h
          | ok vs =>
              simp only [projectAll, hpo, hpr] at h
              injection h with h2
              subst h2
              rw [List.map_cons, List.map_cons, hpo, ih vs hpr]

/-- Helper: a successful run of the projection comprehension preserves the
sequence of timestamps. -/
theorem projectAll_ok_initialized (db : Db) (l : List dbOrder) :
    ∀ out : List Order, projectAll db l = Except.ok out →
      out.map Order.initialized = l.map dbOrder.initialized := by
  induction l with
  | nil =>
      intro out h
      simp only [projectAll] at h
      injection h with h2
      subst h2
      rfl
  | cons o rest ih =>
      intro out h
      cases hpo : projectOrder db o with
      | error e => simp [projectAll, hpo] at h
      | ok v =>
          cases hpr : projectAll db rest with
          | error e => simp [projectAll, hpo, hpr] at h
          | ok vs =>
              simp only [projectAll, hpo, hpr] at h
              injection h with h2
              subst h2
              rw [List.map_cons, List.map_cons,
                projectOrder_ok_initialized db o v hpo, ih vs hpr]

/-- Claim C1: storing a report under an identifier (writing the file
`reports/<id>.pdf`) and then fetching it via `get_report_from_storage`
returns exactly the stored bytes, and a second put to the same identifier
overwrites the previous content (last-write-wins). -/
theorem put_get_roundtrip (fs : FS) (uid : String) (b bPrev : Bytes) :
    get_report_from_storage (putReport fs uid b) uid = some b ∧
    get_report_from_storage (putReport (putReport fs uid bPrev) uid b) uid = some b := by
  constructor <;> simp [get_report_from_storage, putReport]

/-- Claim C2: `gather_orders` returns the projection of all order rows,
each joined to its owning customer (name and surname taken from the
customer row), sorted by the `initialized` timestamp in descending order
(most recent first). -/
theorem gather_orders_sorted_projection (db : Db) (out : List Order)
    (h : (gather_orders (Except.ok db)).value = some out) :
    List.Sorted (fun a b : Order => b.initialized ≤ a.initialized) out ∧
    List.Perm (out.map Except.ok) (db.orders.map (projectOrder db)) := by
  have hbody : projectAll db (orderByInitDesc db.orders) = Except.ok out := by
    have hge : gather_orders (Except.ok db) =
        db_session (projectAll db (orderByInitDesc db.orders)) := rfl
    rw [hge] at h
    cases hb : projectAll db (orderByInitDesc db.orders) with
    | error e => rw [hb] at h; simp [db_session] at h
    | ok l2 =>
        rw [hb] at h
        simp [db_session] at h
        rw [h]
  constructor
  · have hsorted := List.sorted_insertionSort initDesc db.orders
    have hkeys := projectAll_ok_initialized db _ out hbody
    have h1 : ((orderByInitDesc db.orders).map dbOrder.initialized).Pairwise
        (fun x y : Int => y ≤ x) := by
      rw [List.pairwise_map]
      exact hsorted
    rw [← hkeys] at h1
    rw [List.pairwise_map] at h1
    exact h1
  · have hmap := projectAll_ok_map db _ out hbody
    have hperm : (List.map (projectOrder db) (orderByInitDesc db.orders)).Perm
        (List.map (projectOrder db) db.orders) :=
      (List.perm_insertionSort initDesc db.orders).map (projectOrder db)
    rw [hmap] at hperm
    exact hperm

/-- Witness for claim C2: on the concrete store `exDb` the aggregation
succeeds and the conclusion holds at `exOut`. -/
theorem gather_orders_sorted_projection_witness :
    (gather_orders (Except.ok exDb)).value = some exOut ∧
    (List.Sorted (fun a b : Order => b.initialized ≤ a.initialized) exOut ∧
      List.Perm (exOut.map Except.ok) (exDb.orders.map (projectOrder exDb))) :=
  ⟨by decide, gather_orders_sorted_projection exDb exOut (by decide)⟩

/-- Counterexample to claim C3 as stated: when the store is unreachable
the query's exception is not propagated to the caller of `gather_orders`
(nothing is raised and the function returns Python `None`). -/
theorem gather_orders_error_not_raised :
    (gather_orders (Except.error PyError.OperationalError)).raised = none ∧
    (gather_orders (Except.error PyError.OperationalError)).value = none :=
  ⟨rfl, rfl⟩

/-- Claim C3 (amended): if the query inside the session raises, the
`db_session` wrapper swallows the exception — it rolls back, still
commits, raises nothing to the caller — and `gather_orders` returns
Python `None`, so no partial result is ever returned. -/
theorem gather_orders_swallows_store_error (e : PyError) :
    gather_orders (Except.error e) =
      { value := none, rolledBack := true, committed := true, raised := none } :=
  rfl

/-- Claim C4: fetching a report whose file is absent from storage yields
the 404 response with a reason string; the route is a total function of
the store state (no exception is raised), and absence is the only signal,
whatever the reason the file is missing. -/
theorem get_report_missing_returns_404 (fs : FS) (uid : String)
    (h : get_report_from_storage fs uid = none) :
    (get_report fs uid).status = 404 ∧
    (get_report fs uid).body =
      .jsonObj [("reason", .str ("Report with id " ++ uid ++ " not found."))] := by
  constructor <;> simp [get_report, h]

/-- Witness for claim C4: an empty store and an arbitrary identifier. -/
theorem get_report_missing_returns_404_witness :
    get_report_from_storage (fun _ => none) "b1e0" = none ∧
    ((get_report (fun _ => none) "b1e0").status = 404 ∧
      (get_report (fun _ => none) "b1e0").body =
        .jsonObj [("reason", .str ("Report with id " ++ "b1e0" ++ " not found."))]) :=
  ⟨rfl, get_report_missing_returns_404 (fun _ => none) "b1e0" rfl⟩

/-- Claim C5: when the body of a `db_session` unit of work raises, the
session catches the exception, rolls back, still commits in the `finally`
block, and does not re-raise: the caller sees no error and the unit of
work ends in a commit. -/
theorem db_session_commits_after_swallowing (α : Type) (e : PyError) :
    db_session (Except.error e : Except PyError α) =
      { value := none, rolledBack := true, committed := true, raised := none } :=
  rfl

/-- Counterexample to claim C6 as stated: the response body of
`queue_report` is not exactly of shape `{uid: UUID}` — the serialized
`Report` model also carries its `content` field. -/
theorem queue_report_body_not_uid_only :
    serializeReport (queue_report "f3b9" (fun _ => none) []).1 ≠
      Body.jsonObj [("uid", JVal.str "f3b9")] := by
  decide

/-- Claim C6 (amended): every POST to `/queue-report/` returns a body of
shape `{uid: UUID, content: null}` carrying the freshly generated
identifier, schedules the render-and-store pipeline as a background task,
and leaves the report storage untouched at response time. -/
theorem queue_report_response_and_scheduling (uid : String) (fs : FS)
    (tasks : List String) :
    serializeReport (queue_report uid fs tasks).1 =
      Body.jsonObj [("uid", JVal.str uid), ("content", JVal.null)] ∧
    (queue_report uid fs tasks).1.uid = uid ∧
    (queue_report uid fs tasks).2.1 = fs ∧
    (queue_report uid fs tasks).2.2 = tasks ++ [uid] :=
  ⟨rfl, rfl, rfl, rfl⟩

/-- Claim C7: when the maintenance flag is set (present and different from
"False"), every route short-circuits to the fixed maintenance JSON payload
with the header `X-Server-Mode: Maintenance Mode`, regardless of the
response the route would have produced, and the sample-data seeding at
process start is skipped. -/
theorem maintenance_short_circuits_and_skips_seeding (env : Env) (v : String)
    (h1 : env "MAINTENANCE" = some v) (h2 : v ≠ "False")
    (callNext : HttpResponse) (initial seeded : Db) :
    redirect_to_maintenance env callNext = maintenanceResponse ∧
    maintenanceResponse.headers = [("X-Server-Mode", "Maintenance Mode")] ∧
    maintenanceResponse.body =
      Body.jsonObj [("message", JVal.str "Server Unavailable due to maintenance")] ∧
    lifespan env initial seeded = initial := by
  have hoff : maintenanceOff env = false := by
    simp [maintenanceOff, h1, h2]
  refine ⟨?_, rfl, rfl, ?_⟩ <;> simp [redirect_to_maintenance, lifespan, hoff]

/-- Witness for claim C7: the concrete environment `exEnv` with
`MAINTENANCE=1`. -/
theorem maintenance_short_circuits_witness :
    exEnv "MAINTENANCE" = some "1" ∧ "1" ≠ "False" ∧
    (redirect_to_maintenance exEnv root = maintenanceResponse ∧
      maintenanceResponse.headers = [("X-Server-Mode", "Maintenance Mode")] ∧
      maintenanceResponse.body =
        Body.jsonObj [("message", JVal.str "Server Unavailable due to maintenance")] ∧
      lifespan exEnv { customers := [], orders := [] } exDb =
        { customers := [], orders := [] }) :=
  ⟨by decide, by decide,
    maintenance_short_circuits_and_skips_seeding exEnv "1" (by decide) (by decide)
      root { customers := [], orders := [] } exDb⟩

/-- Counterexample to claim C8 as stated: the epoch timestamp 0 is a valid
timestamp, yet `timestamp_format` does not format it at all (the filter
treats it as falsy and returns Python `None`). -/
theorem timestamp_format_zero_not_formatted :
    timestamp_format 10800 (some 0) = none ∧
    timestamp_format 10800 (some 0) ≠ some (formatTimestamp 10800 0) := by
  constructor <;> decide

/-- Claim C8 (amended): every nonzero epoch timestamp is rendered by the
`ts_format` filter in the fixed pattern `DD/MM/YYYY @ HH:MM:SS` at the
server's display offset (the +3 hour shift applies only to the
generation timestamp of the report), and an absent value is rendered by
the `handle_none` filter as the placeholder entity, never blank and never
the string "None"; the timestamp 0 alone is treated as absent. -/
theorem formatting_filters_amended (offset v : Int) (hv : v ≠ 0) :
    (∃ Y : Int, ∃ M D hh mm ss : Nat,
      timestamp_format offset (some v) =
        some (pad2 D ++ "/" ++ pad2 M ++ "/" ++ toString Y ++ " @ " ++
          pad2 hh ++ ":" ++ pad2 mm ++ ":" ++ pad2 ss) ∧
      1 ≤ M ∧ M ≤ 12 ∧ 1 ≤ D ∧ D ≤ 31 ∧ hh < 24 ∧ mm < 60 ∧ ss < 60) ∧
    renderCell Scalar.none = Scalar.str "&dash;" ∧
    "&dash;" ≠ "" ∧ "&dash;" ≠ "None" := by
  have hsec0 : (0 : Int) ≤ (v + offset).emod 86400 :=
    Int.emod_nonneg _ (by norm_num)
  have hsec1 : (v + offset).emod 86400 < 86400 :=
    Int.emod_lt_of_pos _ (by norm_num)
  have hsec : ((v + offset).emod 86400).toNat < 86400 := by omega
  refine ⟨?_, rfl, by decide, by decide⟩
  have hts : timestamp_format offset (some v) = some (formatTimestamp offset v) := by
    simp [timestamp_format, hv]
  refine ⟨(civilFromDays ((v + offset).ediv 86400)).1,
      (civilFromDays ((v + offset).ediv 86400)).2.1,
      (civilFromDays ((v + offset).ediv 86400)).2.2,
      ((v + offset).emod 86400).toNat / 3600,
      ((v + offset).emod 86400).toNat % 3600 / 60,
      ((v + offset).emod 86400).toNat % 60,
      ?_, ?_, ?_, ?_, ?_, ?_, ?_, ?_⟩
  · rw [hts]; rfl
  · exact (civilFromDays_bounds _).1
  · exact (civilFromDays_bounds _).2.1
  · exact (civilFromDays_bounds _).2.2.1
  · exact (civilFromDays_bounds _).2.2.2
  · omega
  · omega
  · omega

/-- Witness for amended claim C8: offset 0 and the nonzero timestamp
86400 (1970-01-02 00:00:00). -/
theorem formatting_filters_amended_witness :
    (86400 : Int) ≠ 0 ∧
    ((∃ Y : Int, ∃ M D hh mm ss : Nat,
      timestamp_format 0 (some 86400) =
        some (pad2 D ++ "/" ++ pad2 M ++ "/" ++ toString Y ++ " @ " ++
          pad2 hh ++ ":" ++ pad2 mm ++ ":" ++ pad2 ss) ∧
      1 ≤ M ∧ M ≤ 12 ∧ 1 ≤ D ∧ D ≤ 31 ∧ hh < 24 ∧ mm < 60 ∧ ss < 60) ∧
    renderCell Scalar.none = Scalar.str "&dash;" ∧
    "&dash;" ≠ "" ∧ "&dash;" ≠ "None") :=
  ⟨by decide, formatting_filters_amended 0 86400 (by decide)⟩

/-- Counterexample to claim C9 as stated: the root route does redirect to
the docs page, but with the library's default status 307, not 302. -/
theorem root_status_not_302 :
    root.status ≠ 302 ∧ root.headers = [("location", "/docs")] := by
  constructor <;> decide

/-- Claim C9 (amended): every GET request to the root path returns an HTTP
307 redirect whose location is the API documentation page. -/
theorem root_redirects_with_307 :
    root.status = 307 ∧ root.headers = [("location", "/docs")] :=
  ⟨rfl, rfl⟩

/-- Claim C10: the formatting filters treat every falsy value as missing:
`timestamp_format` on the valid epoch timestamp 0 returns `None` instead
of a formatted date, and `handle_none` on a zero amount or empty string
returns the placeholder rather than rendering the value. -/
theorem falsy_values_render_as_placeholder (offset : Int) (v : Scalar)
    (h : falsy v = true) :
    timestamp_format offset (some 0) = none ∧
    handle_none v = Scalar.str "&dash;" ∧
    handle_none (Scalar.dec 0) = Scalar.str "&dash;" ∧
    handle_none (Scalar.str "") = Scalar.str "&dash;" := by
  refine ⟨?_, ?_, by decide, by decide⟩
  · simp [timestamp_format]
  · simp [handle_none, h]

/-- Witness for claim C10: the zero decimal amount. -/
theorem falsy_values_render_as_placeholder_witness :
    falsy (Scalar.dec 0) = true ∧
    (timestamp_format 10800 (some 0) = none ∧
      handle_none (Scalar.dec 0) = Scalar.str "&dash;" ∧
      handle_none (Scalar.dec 0) = Scalar.str "&dash;" ∧
      handle_none (Scalar.str "") = Scalar.str "&dash;") :=
  ⟨by decide, falsy_values_render_as_placeholder 10800 (Scalar.dec 0) (by decide)⟩
